import Mathlib

/-!
Verification of the live-arena data hook and leaderboard utilities of the
insurance-agent-benchmark dashboard.

The embedding follows `src/hooks/use-leaderboard.ts` (the `useArena` and
`useLeaderboard` hooks), `src/unnamed/part_005` (`transformLeaderboardEntry`)
and `src/unnamed/part_002` (`AgentRadarChart`).  Asynchronous API calls are
modelled by injecting their results as `Except String _` arguments; side
effects (HTTP requests, timer / socket management, console logging) are
recorded as an explicit list of `Action`s; React `useState` slots are the
fields of `HookState`; `useRef` slots for the poll timer and the socket are
the fields of `Refs`.
-/

namespace ArenaHook

/-- One point of the time-series chart (`TimeSeriesDataPoint` in the API
client): a time label, a numeric timestamp, and per-agent values. -/
structure TimeSeriesDataPoint where
  time : String
  timestamp : Int
  values : List (String × Int)
deriving DecidableEq, Repr

/-- `ArenaLeaderboardEntry` from the API client (per-agent arena stats). -/
structure ArenaLeaderboardEntry where
  rank : Int
  agent_id : String
  agent_name : String
  total_gmv : Int
  deal_count : Int
  conversion_rate : Int
  compliance_score : Int
  composite_score : Int
deriving DecidableEq, Repr

/-- `Customer` from the API client. -/
structure Customer where
  id : String
  label : String
  tag : String
  age : Int
  gender : String
  occupation : String
  income : String
  status : String
  agent_id : Option String
  trust_score : Int
deriving DecidableEq, Repr

/-- An inbound WebSocket message `{type, timestamp, data}`.  For
`stats_update` messages the payload `data.data` carries `agent_stats` and
`time_series`; for event messages the whole message object is what gets
prepended to `recentEvents`, so the message type doubles as the
`ArenaEvent` type. -/
structure WsMessage where
  type : String
  timestamp : String
  agent_stats : List ArenaLeaderboardEntry
  time_series : List TimeSeriesDataPoint
deriving DecidableEq, Repr

/-- The `useState` slots of `useArena`. -/
structure HookState where
  status : String
  agentStats : List ArenaLeaderboardEntry
  timeSeriesData : List TimeSeriesDataPoint
  activeCustomers : List Customer
  recentEvents : List WsMessage
  isLoading : Bool
  error : Option String
deriving DecidableEq, Repr

/-- Initial hook state: `useState("idle")`, empty lists, not loading,
no error. -/
def initialState : HookState :=
  { status := "idle", agentStats := [], timeSeriesData := [],
    activeCustomers := [], recentEvents := [], isLoading := false,
    error := none }

/-- Observable side effects of the hook: HTTP calls it issues, timer and
socket management, and console logging. -/
inductive Action where
  | refetchStatus
  | refetchCustomers
  | refetchEvents
  | postStartArena
  | postStopArena
  | armPollTimer
  | clearIntervalTimer
  | openSocket
  | closeSocket
  | consoleError (msg : String)
deriving DecidableEq, Repr

/-- The event types handled by the third branch of the `onmessage`
dispatch: `["deal_closed", "compliance_violation", "customer_lost"]`. -/
def terminalEventTypes : List String :=
  ["deal_closed", "compliance_violation", "customer_lost"]

/-- The `ws.onmessage` handler of `useArena`.  Dispatch is by the `type`
tag of the parsed message:
`stats_update` replaces `agentStats` and `timeSeriesData` with the payload;
`customer_generated` issues a customer refetch and prepends the message to
`recentEvents`, truncated to 50 (`[data, ...prev].slice(0, 50)`);
`deal_closed` / `compliance_violation` / `customer_lost` issue a status
refetch and prepend likewise; any other type falls through the `if` chain
and does nothing. -/
def onMessage (s : HookState) (msg : WsMessage) : HookState × List Action :=
  if msg.type = "stats_update" then
    ({ s with agentStats := msg.agent_stats,
              timeSeriesData := msg.time_series }, [])
  else if msg.type = "customer_generated" then
    ({ s with recentEvents := (msg :: s.recentEvents).take 50 },
     [Action.refetchCustomers])
  else if terminalEventTypes.contains msg.type then
    ({ s with recentEvents := (msg :: s.recentEvents).take 50 },
     [Action.refetchStatus])
  else
    (s, [])

/-- Process a sequence of inbound WebSocket messages in order. -/
def runMessages (s : HookState) : List WsMessage → HookState
  | [] => s
  | m :: ms => runMessages (onMessage s m).1 ms

/-- A message whose type makes `onmessage` prepend it to `recentEvents`. -/
def isFeedEvent (m : WsMessage) : Bool :=
  m.type ≠ "stats_update" &&
    (m.type = "customer_generated" || terminalEventTypes.contains m.type)

/-- Sample `deal_closed` message. -/
def msgDeal : WsMessage :=
  { type := "deal_closed", timestamp := "t1", agent_stats := [],
    time_series := [] }

/-- Sample `customer_generated` message. -/
def msgCustomer : WsMessage :=
  { type := "customer_generated", timestamp := "t2", agent_stats := [],
    time_series := [] }

/-- Sample `stats_update` message with a one-entry payload. -/
def msgStats : WsMessage :=
  { type := "stats_update", timestamp := "t3",
    agent_stats := [{ rank := 1, agent_id := "a1", agent_name := "Agent 1",
                      total_gmv := 100, deal_count := 2, conversion_rate := 50,
                      compliance_score := 90, composite_score := 80 }],
    time_series := [{ time := "10:00", timestamp := 1000,
                      values := [("Agent 1", 100)] }] }

/-- Sample message of an unhandled type. -/
def msgUnknown : WsMessage :=
  { type := "heartbeat", timestamp := "t4", agent_stats := [],
    time_series := [] }

/-- Response of `GET /api/v1/arena/status` (`ArenaStatus` in the client),
restricted to the fields `fetchStatus` reads. -/
structure ArenaStatusResp where
  status : String
  agent_stats : List ArenaLeaderboardEntry
  time_series : List TimeSeriesDataPoint
deriving DecidableEq, Repr

/-- Response of `GET /api/v1/arena/customers`. -/
structure CustomersResp where
  customers : List Customer
  total : Int
deriving DecidableEq, Repr

/-- Response of `GET /api/v1/arena/events?limit=20`. -/
structure EventsResp where
  events : List WsMessage
deriving DecidableEq, Repr

/-- `fetchStatus`: issues the status GET; on success replaces `status`,
`agentStats` and `timeSeriesData`; on failure logs to the console and
leaves the state untouched (the `try`/`catch` swallows the error, so the
function never throws to its caller). -/
def fetchStatus (result : Except String ArenaStatusResp) (s : HookState) :
    HookState × List Action :=
  match result with
  | .ok d =>
      ({ s with status := d.status, agentStats := d.agent_stats,
                timeSeriesData := d.time_series }, [Action.refetchStatus])
  | .error e =>
      (s, [Action.refetchStatus,
           Action.consoleError ("Failed to fetch arena status: " ++ e)])

/-- `fetchCustomers`: issues the customers GET; on success replaces
`activeCustomers`; on failure logs and leaves the state untouched. -/
def fetchCustomers (result : Except String CustomersResp) (s : HookState) :
    HookState × List Action :=
  match result with
  | .ok d =>
      ({ s with activeCustomers := d.customers }, [Action.refetchCustomers])
  | .error e =>
      (s, [Action.refetchCustomers,
           Action.consoleError ("Failed to fetch customers: " ++ e)])

/-- `fetchEvents`: issues the events GET (limit 20); on success replaces
`recentEvents`; on failure logs and leaves the state untouched. -/
def fetchEvents (result : Except String EventsResp) (s : HookState) :
    HookState × List Action :=
  match result with
  | .ok d =>
      ({ s with recentEvents := d.events }, [Action.refetchEvents])
  | .error e =>
      (s, [Action.refetchEvents,
           Action.consoleError ("Failed to fetch events: " ++ e)])

/-- JavaScript `err.message || dflt`: the default is used when the message
is falsy (empty). -/
def messageOr (msg dflt : String) : String :=
  if msg = "" then dflt else msg

/-- `startArena(agents, durationMinutes)`.  The POST result is injected as
`postResult`; the result of the subsequent `fetchStatus` (only reached on
POST success) as `statusResult`.  Returns the state, the actions performed,
and the re-thrown error (`throw err` in the `catch` block), if any. -/
def startArena (postResult : Except String Unit)
    (statusResult : Except String ArenaStatusResp) (s : HookState) :
    (HookState × List Action) × Option String :=
  let s1 := { s with isLoading := true, error := none }
  match postResult with
  | .ok _ =>
      let (s2, acts) := fetchStatus statusResult s1
      (({ s2 with isLoading := false }, Action.postStartArena :: acts), none)
  | .error e =>
      (({ s1 with error := some (messageOr e "Failed to start arena"),
                  isLoading := false }, [Action.postStartArena]), some e)

/-- `stopArena()`.  Sets `isLoading`, POSTs the stop request and, when the
POST succeeds, awaits `fetchStatus`; when the POST throws, the `catch`
stores the extracted message in `error` (nothing is re-thrown) and no
status refetch happens. -/
def stopArena (postResult : Except String Unit)
    (statusResult : Except String ArenaStatusResp) (s : HookState) :
    HookState × List Action :=
  let s1 := { s with isLoading := true }
  match postResult with
  | .ok _ =>
      let (s2, acts) := fetchStatus statusResult s1
      ({ s2 with isLoading := false }, Action.postStopArena :: acts)
  | .error e =>
      ({ s1 with error := some (messageOr e "Failed to stop arena"),
                 isLoading := false }, [Action.postStopArena])

/-- The two `useRef` slots of `useArena`: the polling interval handle and
the WebSocket handle (both `null` until armed). -/
structure Refs where
  polling : Option Nat
  ws : Option Nat
deriving DecidableEq, Repr

/-- The `else` branch of the polling `useEffect` (runs whenever `status`
is not `"running"`): `if (pollingRef.current)` clear the interval and null
the ref; `if (wsRef.current)` close the socket and null the ref.  Each
guard makes the corresponding half a no-op when the ref is already null. -/
def teardownRefs (r : Refs) : Refs × List Action :=
  let pollStep : Option Nat × List Action :=
    match r.polling with
    | some _ => (none, [Action.clearIntervalTimer])
    | none => (r.polling, [])
  let wsStep : Option Nat × List Action :=
    match r.ws with
    | some _ => (none, [Action.closeSocket])
    | none => (r.ws, [])
  ({ polling := pollStep.1, ws := wsStep.1 }, pollStep.2 ++ wsStep.2)

/-- The cleanup function returned by the `useEffect` (runs on unmount or
before re-running the effect): clears the interval and closes the socket
when armed, guarded by the same null checks (refs are not nulled here). -/
def cleanupEffect (r : Refs) : List Action :=
  (match r.polling with
   | some _ => [Action.clearIntervalTimer]
   | none => []) ++
  (match r.ws with
   | some _ => [Action.closeSocket]
   | none => [])

/-- The body of the polling `useEffect`.  On `status = "running"` it arms
the 5s poll interval and attempts the WebSocket connection
(`createWebSocketConnection` may throw, injected as `wsCreate`; on throw
the socket ref is left as-is and the error is logged).  On any other
status it runs the teardown branch. -/
def effectBody (status : String) (timerId : Nat)
    (wsCreate : Except String Nat) (r : Refs) : Refs × List Action :=
  if status = "running" then
    let r1 := { r with polling := some timerId }
    match wsCreate with
    | .ok sock =>
        ({ r1 with ws := some sock }, [Action.armPollTimer, Action.openSocket])
    | .error e =>
        (r1, [Action.armPollTimer,
              Action.consoleError ("Failed to create WebSocket: " ++ e)])
  else
    teardownRefs r

/-- Sample successful status response. -/
def okStatusResp : ArenaStatusResp :=
  { status := "running", agent_stats := [], time_series := [] }

/-- Refs with both the poll timer and the socket armed. -/
def armedRefs : Refs := { polling := some 1, ws := some 2 }

/-- Refs with neither the poll timer nor the socket armed (the state after
any teardown, and before the first transition into `running`). -/
def nullRefs : Refs := { polling := none, ws := none }

end ArenaHook

namespace Leaderboard

/-- `LeaderboardEntry` from the API client.  Scores are modelled as
integers; only their ordering matters to the hook. -/
structure LeaderboardEntry where
  rank : Int
  agent_id : String
  agent_name : String
  vendor : String
  version : String
  agent_type : String
  overall_score : Int
  overall_percentage : Int
  knowledge_score : Int
  understanding_score : Int
  reasoning_score : Int
  compliance_score : Int
  tools_score : Int
  change : Int
  evaluation_date : String
deriving DecidableEq, Repr

/-- `entries.sort((a, b) => key(b) - key(a))`: `Array.prototype.sort` is
specified (ES2019) to be stable and to order by the comparator, so a
descending sort by `key` is modelled as a stable insertion sort with
respect to `key b ≤ key a`. -/
def sortByDesc (key : LeaderboardEntry → Int) (l : List LeaderboardEntry) :
    List LeaderboardEntry :=
  List.insertionSort (fun a b => key b ≤ key a) l

/-- `getSortedEntries` of `useLeaderboard`: returns `[]` when there is no
data, otherwise sorts a copy of the entries by the dimension selected by
`sortKey` (the `switch`), defaulting to `overall_score`. -/
def getSortedEntries (entries : Option (List LeaderboardEntry))
    (sortKey : String) : List LeaderboardEntry :=
  match entries with
  | none => []
  | some es =>
    if sortKey = "knowledge" then sortByDesc (fun e => e.knowledge_score) es
    else if sortKey = "claims" then sortByDesc (fun e => e.reasoning_score) es
    else if sortKey = "actuarial" then sortByDesc (fun e => e.tools_score) es
    else if sortKey = "compliance" then
      sortByDesc (fun e => e.compliance_score) es
    else if sortKey = "tools" then sortByDesc (fun e => e.tools_score) es
    else sortByDesc (fun e => e.overall_score) es

/-- The per-dimension scores of the transformed entry. -/
structure TransformedScores where
  knowledge : Int
  claims : Int
  actuarial : Int
  compliance : Int
  tools : Int
deriving DecidableEq, Repr

/-- The component-format record produced by `transformLeaderboardEntry`. -/
structure TransformedEntry where
  id : String
  name : String
  vendor : String
  version : String
  agentType : String
  color : String
  overallScore : Int
  change : Int
  scores : TransformedScores
  history : List Int
deriving DecidableEq, Repr

/-- `transformLeaderboardEntry` from the data-transformation utilities:
derives a deterministic color index from the character codes of
`agent_id` (codepoints agree with JavaScript UTF-16 units on the BMP),
copies the identity fields, and fills `scores`; note `actuarial` is read
from `entry.tools_score` and `history` is hard-coded empty. -/
def transformLeaderboardEntry (entry : LeaderboardEntry) : TransformedEntry :=
  let colorIndex :=
    (entry.agent_id.data.foldl (fun acc c => acc + c.toNat) 0) % 5 + 1
  { id := entry.agent_id
    name := entry.agent_name
    vendor := entry.vendor
    version := entry.version
    agentType := entry.agent_type
    color := "var(--chart-" ++ toString colorIndex ++ ")"
    overallScore := entry.overall_percentage
    change := entry.change
    scores := { knowledge := entry.knowledge_score
                claims := entry.reasoning_score
                actuarial := entry.tools_score
                compliance := entry.compliance_score
                tools := entry.tools_score }
    history := [] }

/-- The `dimensions` table of `AgentRadarChart`, as pairs
`(key, scoreKey)` (the display label is presentation only). -/
def radarDimensions : List (String × String) :=
  [("knowledge", "knowledge_score"),
   ("claims", "reasoning_score"),
   ("actuarial", "tools_score"),
   ("compliance", "compliance_score"),
   ("tools", "tools_score")]

end Leaderboard

namespace ArenaHook

theorem recentEvents_onMessage (s : HookState) (m : WsMessage) :
    (onMessage s m).1.recentEvents =
      if isFeedEvent m then (m :: s.recentEvents).take 50
      else s.recentEvents := by
  unfold onMessage isFeedEvent
  by_cases h1 : m.type = "stats_update" <;>
    by_cases h2 : m.type = "customer_generated" <;>
      by_cases h3 : m.type ∈ terminalEventTypes <;>
        simp [h1, h2, h3]

theorem take_append_take {α : Type} (A B : List α) (n : Nat) :
    (A ++ B.take n).take n = (A ++ B).take n := by
  rw [List.take_append_eq_append_take, List.take_append_eq_append_take,
    List.take_take]
  congr 2
  omega

theorem runMessages_recentEvents (msgs : List WsMessage) (s : HookState)
    (h : s.recentEvents.length ≤ 50) :
    (runMessages s msgs).recentEvents =
      ((msgs.filter isFeedEvent).reverse ++ s.recentEvents).take 50 := by
  induction msgs generalizing s with
  | nil => simpa [runMessages] using (List.take_of_length_le h).symm
  | cons m ms ih =>
    rw [runMessages]
    by_cases hm : isFeedEvent m
    · have h1 : (onMessage s m).1.recentEvents =
          (m :: s.recentEvents).take 50 := by
        rw [recentEvents_onMessage, if_pos hm]
      have h2 : (onMessage s m).1.recentEvents.length ≤ 50 := by
        rw [h1, List.length_take]
        omega
      rw [ih _ h2, h1, take_append_take]
      congr 1
      simp [List.filter_cons, hm]
    · have h1 : (onMessage s m).1.recentEvents = s.recentEvents := by
        rw [recentEvents_onMessage, if_neg hm]
      have h2 : (onMessage s m).1.recentEvents.length ≤ 50 := h1 ▸ h
      rw [ih _ h2, h1]
      congr 3
      simp [List.filter_cons, hm]

/-- C1: starting from any hook state whose event feed holds at most 50
entries (in particular the initial empty feed), processing any sequence of
inbound WebSocket messages through the `onmessage` handler leaves
`recentEvents` with at most 50 entries, and the feed equals the
most-recent-first list of the feed-relevant messages (each new event
prepended, list truncated to 50). -/
theorem recentEvents_bounded_newest_first (msgs : List WsMessage)
    (s : HookState) (h : s.recentEvents.length ≤ 50) :
    (runMessages s msgs).recentEvents.length ≤ 50 ∧
      (runMessages s msgs).recentEvents =
        ((msgs.filter isFeedEvent).reverse ++ s.recentEvents).take 50 := by
  refine ⟨?_, runMessages_recentEvents msgs s h⟩
  rw [runMessages_recentEvents msgs s h, List.length_take]
  omega

/-- Witness for C1 at a concrete message sequence and the initial state. -/
theorem recentEvents_bounded_newest_first_witness :
    initialState.recentEvents.length ≤ 50 ∧
      ((runMessages initialState [msgDeal, msgStats, msgCustomer]).recentEvents.length ≤ 50 ∧
        (runMessages initialState [msgDeal, msgStats, msgCustomer]).recentEvents =
          (([msgDeal, msgStats, msgCustomer].filter isFeedEvent).reverse ++
            initialState.recentEvents).take 50) :=
  ⟨by decide,
   recentEvents_bounded_newest_first [msgDeal, msgStats, msgCustomer]
     initialState (by decide)⟩

/-- C3: the `onmessage` handler dispatches on the `type` tag: a
`stats_update` message replaces `agentStats` and `timeSeriesData`
wholesale with the payload; a `customer_generated` message issues a
customer-list refetch and prepends the event to `recentEvents` (truncated
to 50); a `deal_closed`, `compliance_violation` or `customer_lost` message
issues a status refetch and prepends the event likewise.  (The handler is
only installed while `status = "running"`, by `effectBody`.) -/
theorem onMessage_dispatch (s : HookState) (m : WsMessage) :
    (m.type = "stats_update" →
      onMessage s m =
        ({ s with agentStats := m.agent_stats,
                  timeSeriesData := m.time_series }, [])) ∧
    (m.type = "customer_generated" →
      onMessage s m =
        ({ s with recentEvents := (m :: s.recentEvents).take 50 },
         [Action.refetchCustomers])) ∧
    (m.type ∈ terminalEventTypes →
      onMessage s m =
        ({ s with recentEvents := (m :: s.recentEvents).take 50 },
         [Action.refetchStatus])) := by
  refine ⟨fun h => ?_, fun h => ?_, fun h => ?_⟩
  · simp [onMessage, h]
  · simp [onMessage, h]
  · simp only [terminalEventTypes, List.mem_cons, List.not_mem_nil,
      or_false] at h
    rcases h with h | h | h <;> simp [onMessage, h, terminalEventTypes]

/-- Witness for C3: the three dispatch branches at concrete messages. -/
theorem onMessage_dispatch_witness :
    onMessage initialState msgStats =
      ({ initialState with agentStats := msgStats.agent_stats,
                           timeSeriesData := msgStats.time_series }, []) ∧
    onMessage initialState msgCustomer =
      ({ initialState with
           recentEvents := (msgCustomer :: initialState.recentEvents).take 50 },
       [Action.refetchCustomers]) ∧
    onMessage initialState msgDeal =
      ({ initialState with
           recentEvents := (msgDeal :: initialState.recentEvents).take 50 },
       [Action.refetchStatus]) :=
  ⟨(onMessage_dispatch initialState msgStats).1 (by decide),
   (onMessage_dispatch initialState msgCustomer).2.1 (by decide),
   (onMessage_dispatch initialState msgDeal).2.2 (by decide)⟩

/-- C10: an inbound message whose `type` is none of the five handled tags
falls through every branch of the `onmessage` dispatch: all hook state is
left unchanged and no refetch (or any other action) is issued. -/
theorem onMessage_unknown_noop (s : HookState) (m : WsMessage)
    (h : m.type ∉ ["stats_update", "customer_generated", "deal_closed",
                   "compliance_violation", "customer_lost"]) :
    onMessage s m = (s, []) := by
  simp only [List.mem_cons, List.not_mem_nil, or_false, not_or] at h
  obtain ⟨h1, h2, h3, h4, h5⟩ := h
  simp [onMessage, terminalEventTypes, h1, h2, h3, h4, h5]

/-- Witness for C10 at a concrete `heartbeat` message. -/
theorem onMessage_unknown_noop_witness :
    onMessage initialState msgUnknown = (initialState, []) :=
  onMessage_unknown_noop initialState msgUnknown (by decide)

/-- C5: when any of the background refreshes (`fetchStatus`,
`fetchCustomers`, `fetchEvents`) fails, the error is caught and logged to
the console and the whole hook state — `status`, `agentStats`,
`timeSeriesData`, `activeCustomers`, `recentEvents`, `error` — is left
exactly as it was.  The functions are total (they never re-throw), so no
error reaches the caller. -/
theorem background_fetch_error_swallowed (e : String) (s : HookState) :
    (fetchStatus (Except.error e) s).1 = s ∧
    (fetchCustomers (Except.error e) s).1 = s ∧
    (fetchEvents (Except.error e) s).1 = s ∧
    Action.consoleError ("Failed to fetch arena status: " ++ e) ∈
      (fetchStatus (Except.error e) s).2 ∧
    Action.consoleError ("Failed to fetch customers: " ++ e) ∈
      (fetchCustomers (Except.error e) s).2 ∧
    Action.consoleError ("Failed to fetch events: " ++ e) ∈
      (fetchEvents (Except.error e) s).2 := by
  refine ⟨rfl, rfl, rfl, ?_, ?_, ?_⟩ <;>
    simp [fetchStatus, fetchCustomers, fetchEvents]

/-- C2 as stated is false: when the stop POST throws, `stopArena` jumps to
the `catch` block and `fetchStatus` is never invoked.  Concretely, with a
failing POST no status refetch appears among the performed actions. -/
theorem stopArena_refetch_claim_counterexample :
    Action.refetchStatus ∉
      (stopArena (Except.error "network down") (Except.ok okStatusResp)
        initialState).2 := by
  decide

/-- C2 (amended): `stopArena()` always issues the stop POST; when the POST
succeeds the status is refetched afterwards; when the POST throws, the
error is caught, its extracted message is stored in the hook error state
(nothing is re-thrown) and no status refetch occurs. -/
theorem stopArena_refetch_only_on_success (post : Except String Unit)
    (statusRes : Except String ArenaStatusResp) (s : HookState) :
    Action.postStopArena ∈ (stopArena post statusRes s).2 ∧
    (∀ u, post = Except.ok u →
      Action.refetchStatus ∈ (stopArena post statusRes s).2) ∧
    (∀ e, post = Except.error e →
      Action.refetchStatus ∉ (stopArena post statusRes s).2 ∧
      (stopArena post statusRes s).1.error =
        some (messageOr e "Failed to stop arena")) := by
  refine ⟨?_, fun u hu => ?_, fun e he => ?_⟩
  · cases post with
    | ok u => cases statusRes <;> simp [stopArena, fetchStatus]
    | error e => simp [stopArena]
  · subst hu
    cases statusRes <;> simp [stopArena, fetchStatus]
  · subst he
    simp [stopArena]

/-- Witness for the amended C2: success refetches, failure does not and
stores the message. -/
theorem stopArena_refetch_only_on_success_witness :
    Action.refetchStatus ∈
      (stopArena (Except.ok ()) (Except.ok okStatusResp) initialState).2 ∧
    (Action.refetchStatus ∉
      (stopArena (Except.error "boom") (Except.ok okStatusResp)
        initialState).2 ∧
      (stopArena (Except.error "boom") (Except.ok okStatusResp)
        initialState).1.error = some (messageOr "boom" "Failed to stop arena")) :=
  ⟨(stopArena_refetch_only_on_success (Except.ok ()) (Except.ok okStatusResp)
      initialState).2.1 () rfl,
   (stopArena_refetch_only_on_success (Except.error "boom")
      (Except.ok okStatusResp) initialState).2.2 "boom" rfl⟩

/-- C7: `startArena` always issues the start POST; on success it triggers
a status refetch and re-throws nothing; on failure the extracted message
(`err.message || "Failed to start arena"`) is stored in the hook error
state and the original error is re-thrown to the caller. -/
theorem startArena_success_refetch_failure_rethrow (post : Except String Unit)
    (statusRes : Except String ArenaStatusResp) (s : HookState) :
    Action.postStartArena ∈ (startArena post statusRes s).1.2 ∧
    (∀ u, post = Except.ok u →
      Action.refetchStatus ∈ (startArena post statusRes s).1.2 ∧
      (startArena post statusRes s).2 = none) ∧
    (∀ e, post = Except.error e →
      (startArena post statusRes s).1.1.error =
        some (messageOr e "Failed to start arena") ∧
      (startArena post statusRes s).2 = some e) := by
  refine ⟨?_, fun u hu => ?_, fun e he => ?_⟩
  · cases post with
    | ok u => cases statusRes <;> simp [startArena, fetchStatus]
    | error e => simp [startArena]
  · subst hu
    cases statusRes <;> simp [startArena, fetchStatus]
  · subst he
    simp [startArena]

/-- Witness for C7: a successful and a failing start at concrete inputs. -/
theorem startArena_success_refetch_failure_rethrow_witness :
    (Action.refetchStatus ∈
      (startArena (Except.ok ()) (Except.ok okStatusResp) initialState).1.2 ∧
      (startArena (Except.ok ()) (Except.ok okStatusResp) initialState).2 =
        none) ∧
    ((startArena (Except.error "down") (Except.ok okStatusResp)
        initialState).1.1.error =
      some (messageOr "down" "Failed to start arena") ∧
      (startArena (Except.error "down") (Except.ok okStatusResp)
        initialState).2 = some "down") :=
  ⟨(startArena_success_refetch_failure_rethrow (Except.ok ())
      (Except.ok okStatusResp) initialState).2.1 () rfl,
   (startArena_success_refetch_failure_rethrow (Except.error "down")
      (Except.ok okStatusResp) initialState).2.2 "down" rfl⟩

/-- C6: whenever the effect runs with a status other than `"running"`
(the transition out of `running`), it runs the teardown branch; teardown
always leaves both refs null, clears the interval when the timer was armed
and closes the socket when one was open, and is a no-op (empty action
list, refs unchanged) when neither was armed — in particular when the
socket was never successfully opened.  The unmount cleanup likewise clears
and closes exactly what is armed and is a no-op on null refs. -/
theorem teardown_clears_timer_closes_socket (r : Refs) (t w tid : Nat)
    (st : String) (wc : Except String Nat) :
    (st ≠ "running" → effectBody st tid wc r = teardownRefs r) ∧
    (teardownRefs r).1 = nullRefs ∧
    (r.polling = some t → Action.clearIntervalTimer ∈ (teardownRefs r).2) ∧
    (r.ws = some w → Action.closeSocket ∈ (teardownRefs r).2) ∧
    (r.polling = none → r.ws = none → teardownRefs r = (r, [])) ∧
    (r.polling = some t → Action.clearIntervalTimer ∈ cleanupEffect r) ∧
    (r.ws = some w → Action.closeSocket ∈ cleanupEffect r) ∧
    (r.polling = none → r.ws = none → cleanupEffect r = []) := by
  obtain ⟨p, s⟩ := r
  refine ⟨fun hst => by simp [effectBody, hst], ?_, ?_, ?_, ?_, ?_, ?_, ?_⟩ <;>
    cases p <;> cases s <;> simp [teardownRefs, cleanupEffect, nullRefs]

/-- Witness for C6: teardown with both resources armed, and the no-op
teardown with both refs null. -/
theorem teardown_clears_timer_closes_socket_witness :
    (effectBody "idle" 3 (Except.ok 0) armedRefs = teardownRefs armedRefs ∧
      Action.clearIntervalTimer ∈ (teardownRefs armedRefs).2 ∧
      Action.closeSocket ∈ (teardownRefs armedRefs).2 ∧
      Action.clearIntervalTimer ∈ cleanupEffect armedRefs ∧
      Action.closeSocket ∈ cleanupEffect armedRefs) ∧
    (teardownRefs nullRefs = (nullRefs, []) ∧ cleanupEffect nullRefs = []) := by
  have h1 := teardown_clears_timer_closes_socket armedRefs 1 2 3 "idle"
    (Except.ok 0)
  have h2 := teardown_clears_timer_closes_socket nullRefs 1 2 3 "idle"
    (Except.ok 0)
  exact ⟨⟨h1.1 (by decide), h1.2.2.1 rfl, h1.2.2.2.1 rfl,
          h1.2.2.2.2.2.1 rfl, h1.2.2.2.2.2.2.1 rfl⟩,
         ⟨h2.2.2.2.2.1 rfl rfl, h2.2.2.2.2.2.2.2 rfl rfl⟩⟩

/-- C8: `stopArena()` issues the stop POST no matter what the current
status is (the function does not branch on `status`), and when it is
called while the status is `"idle"` the effect has already nulled both
refs, so the teardown branch is a no-op: no clear, no close, refs
unchanged. -/
theorem stopArena_idle_post_issued_teardown_noop (post : Except String Unit)
    (statusRes : Except String ArenaStatusResp) (s : HookState)
    (tid : Nat) (wc : Except String Nat) :
    Action.postStopArena ∈ (stopArena post statusRes s).2 ∧
    effectBody "idle" tid wc nullRefs = (nullRefs, []) := by
  constructor
  · cases post with
    | ok u => cases statusRes <;> simp [stopArena, fetchStatus]
    | error e => simp [stopArena]
  · simp [effectBody, teardownRefs, nullRefs]

end ArenaHook

namespace Leaderboard

theorem filter_key_orderedInsert (key : LeaderboardEntry → Int) (k : Int)
    (x : LeaderboardEntry) (l : List LeaderboardEntry) :
    (List.orderedInsert (fun a b => key b ≤ key a) x l).filter
        (fun e => key e == k) =
      if key x == k then x :: l.filter (fun e => key e == k)
      else l.filter (fun e => key e == k) := by
  induction l with
  | nil =>
    by_cases hx : key x = k <;>
      simp [List.orderedInsert, List.filter_cons, hx]
  | cons y ys ih =>
    rw [List.orderedInsert]
    by_cases hr : key y ≤ key x
    · rw [if_pos hr]
      by_cases hx : key x = k <;> simp [List.filter_cons, hx]
    · rw [if_neg hr]
      by_cases hx : key x = k
      · have hy : ¬ key y = k := by omega
        simp [List.filter_cons, ih, hx, hy]
      · simp [List.filter_cons, ih, hx]

theorem filter_key_sortByDesc (key : LeaderboardEntry → Int) (k : Int)
    (l : List LeaderboardEntry) :
    (sortByDesc key l).filter (fun e => key e == k) =
      l.filter (fun e => key e == k) := by
  induction l with
  | nil => rfl
  | cons x xs ih =>
    show (List.orderedInsert _ x (List.insertionSort _ xs)).filter _ = _
    rw [filter_key_orderedInsert]
    by_cases hx : key x = k <;>
      simp [hx, List.filter_cons] <;> exact ih

theorem sortByDesc_sorted (key : LeaderboardEntry → Int)
    (l : List LeaderboardEntry) :
    (sortByDesc key l).Sorted (fun a b => key b ≤ key a) := by
  haveI : IsTotal LeaderboardEntry (fun a b => key b ≤ key a) :=
    ⟨fun a b => le_total (key b) (key a)⟩
  haveI : IsTrans LeaderboardEntry (fun a b => key b ≤ key a) :=
    ⟨fun _ _ _ hab hbc => le_trans hbc hab⟩
  exact List.sorted_insertionSort _ l

/-- C4: `getSortedEntries("knowledge")` returns the held entries ordered
by descending `knowledge_score` (every entry's score is at least the score
of every later entry), as a permutation of the input, and stably: for
every score value the entries carrying it appear in their original
relative order (the filtered sublists coincide). -/
theorem getSortedEntries_knowledge_sorted_stable
    (es : List LeaderboardEntry) :
    (getSortedEntries (some es) "knowledge").Sorted
        (fun a b => b.knowledge_score ≤ a.knowledge_score) ∧
    (getSortedEntries (some es) "knowledge").Perm es ∧
    ∀ k : Int,
      (getSortedEntries (some es) "knowledge").filter
          (fun e => e.knowledge_score == k) =
        es.filter (fun e => e.knowledge_score == k) := by
  have hg : getSortedEntries (some es) "knowledge" =
      sortByDesc (fun e => e.knowledge_score) es := rfl
  rw [hg]
  exact ⟨sortByDesc_sorted _ es, List.perm_insertionSort _ es,
    fun k => filter_key_sortByDesc _ k es⟩

/-- C9: for every leaderboard entry, `transformLeaderboardEntry` fills
both `scores.actuarial` and `scores.tools` from the input's `tools_score`,
never reads `understanding_score` (changing it leaves the output
unchanged), and hard-codes `history` to the empty list; the radar chart's
dimension table maps the `actuarial` axis to the `tools_score` field the
same way. -/
theorem transform_actuarial_aliases_tools (entry : LeaderboardEntry)
    (u : Int) :
    (transformLeaderboardEntry entry).scores.actuarial = entry.tools_score ∧
    (transformLeaderboardEntry entry).scores.tools = entry.tools_score ∧
    (transformLeaderboardEntry entry).history = [] ∧
    transformLeaderboardEntry { entry with understanding_score := u } =
      transformLeaderboardEntry entry ∧
    radarDimensions.lookup "actuarial" = some "tools_score" :=
  ⟨rfl, rfl, rfl, rfl, rfl⟩

end Leaderboard
